import Mathlib

/-!
Verification of the `wikipedia-knowledge-agent` repository's load-balancer
benchmark harness, contract types, Wikipedia-processing scripts and the
comment stripper, against its natural-language specification.

Each Python source construct is shallowly embedded as a Lean definition:
floats become exact rationals (`ℚ`), the pseudorandom generator becomes an
explicit stream-position structure whose individual draws are either modelled
by a fixed sample function or quantified over explicitly, and the load
balancer under test (which the harness imports from a workspace and which is
not part of the repository) is an abstract state machine.
-/

namespace LoadBalancerBench

/-! ## Contract types (`src/tests/contracts/01_load_balancer/types.py`) -/

/-- `Priority(IntEnum)`: request priority levels, higher value = higher
priority. -/
inductive Priority where
  | BACKGROUND
  | NORMAL
  | CRITICAL
deriving DecidableEq, Repr

/-- The integer value of each `Priority` member (`BACKGROUND = 1`,
`NORMAL = 2`, `CRITICAL = 3`). -/
def Priority.val : Priority → ℕ
  | .BACKGROUND => 1
  | .NORMAL => 2
  | .CRITICAL => 3

/-- `IntEnum` comparison: members compare by their integer value. -/
def Priority.lt (p q : Priority) : Prop := p.val < q.val

instance : DecidablePred fun pq : Priority × Priority => Priority.lt pq.1 pq.2 :=
  fun pq => inferInstanceAs (Decidable (pq.1.val < pq.2.val))

instance (p q : Priority) : Decidable (Priority.lt p q) :=
  inferInstanceAs (Decidable (p.val < q.val))

/-- `Request`: an incoming request to be routed by the load balancer. -/
structure Request where
  id : ℤ
  priority : Priority
  tick : ℤ
deriving DecidableEq, Repr

/-- `Response`: result of handling a request.  `latency_ms` is a Python
float, embedded as an exact rational. -/
structure Response where
  request_id : ℤ
  admitted : Bool
  success : Bool
  backend_name : String
  latency_ms : ℚ
  shed : Bool := false
deriving DecidableEq, Repr

/-! ## Pseudorandom source model

`random.Random(seed)` is a deterministic stream of draws determined by the
seed.  The Mersenne-Twister values themselves are opaque to every claim we
settle, so the stream is modelled as a fixed sample function of
(seed, position); where a claim depends on the *range* of a draw it
quantifies over the draw explicitly instead. -/

/-- A fixed stand-in for the value of the `n`-th draw of a generator seeded
with `s`, always in `[0, 1)`. -/
def sampleQ (s n : ℕ) : ℚ := ((s * 31 + n * 17) % 100 : ℕ) / 100

/-- State of one `random.Random` instance: its seed and how many draws have
been taken. -/
structure Rng where
  seed : ℕ
  pos : ℕ
deriving DecidableEq, Repr

/-- `random.Random(seed)`: a freshly seeded generator. -/
def mkRandom (seed : ℕ) : Rng := ⟨seed, 0⟩

/-- `random.Random()` with no argument: a generator seeded from ambient
OS entropy, modelled as a generator seeded from an explicit entropy
parameter threaded through the harness embedding. -/
def ambientRandom (entropy : ℕ) : Rng := ⟨entropy, 0⟩

/-- `rng.random()`: one draw in `[0, 1)`, advancing the stream. -/
def Rng.random (r : Rng) : ℚ × Rng :=
  (sampleQ r.seed r.pos, ⟨r.seed, r.pos + 1⟩)

/-- `rng.uniform(a, b)`: one draw in `[a, b]`, advancing the stream. -/
def Rng.uniform (r : Rng) (a b : ℚ) : ℚ × Rng :=
  let (u, r') := r.random
  (a + (b - a) * u, r')

/-! ## `SimulatedBackend` (`src/tests/benchmarks/01_load_balancer.py`) -/

/-- Benchmark-controlled backend implementing the `BackendHandle`
protocol.  Fields mirror `SimulatedBackend.__init__`'s attributes. -/
structure SimulatedBackend where
  name : String
  base_latency_ms : ℚ
  rng : Rng
  alive : Bool := true
  latency_multiplier : ℚ := 1
  error_rate : ℚ := 0
deriving DecidableEq, Repr

namespace SimulatedBackend

/-- `SimulatedBackend.__init__(name, base_latency_ms=50.0, rng=None)`:
`self._rng = rng or random.Random()`, so a missing `rng` argument falls
back to an ambient-entropy generator. -/
def init (name : String) (base_latency_ms : ℚ) (rng : Option Rng)
    (entropy : ℕ) : SimulatedBackend :=
  { name := name
    base_latency_ms := base_latency_ms
    rng := rng.getD (ambientRandom entropy) }

/-- Core of `send_request` with the two pseudorandom draws made explicit:
`u` is the jitter draw `uniform(-0.1, 0.1)` and `e` the error draw
`random()`.  A dead backend returns `(False, 0.0)` before any draw. -/
def sendRequestD (b : SimulatedBackend) (u e : ℚ) : Bool × ℚ :=
  if !b.alive then (false, 0)
  else
    let latency := b.base_latency_ms * b.latency_multiplier * (1 + u)
    if e < b.error_rate then (false, latency) else (true, latency)

/-- `send_request(self) -> tuple[bool, float]`, drawing jitter and the
error coin from the backend's own generator. -/
def send_request (b : SimulatedBackend) : (Bool × ℚ) × SimulatedBackend :=
  if !b.alive then ((false, 0), b)
  else
    let (u, r1) := b.rng.uniform (-1/10) (1/10)
    let (e, r2) := r1.random
    (b.sendRequestD u e, { b with rng := r2 })

/-- Core of `health_probe` with the jitter draw `u` made explicit: probe
latency is `base * multiplier * 0.1`, jittered. -/
def healthProbeD (b : SimulatedBackend) (u : ℚ) : Bool × ℚ :=
  if !b.alive then (false, 0)
  else (true, b.base_latency_ms * b.latency_multiplier * (1/10) * (1 + u))

/-- `health_probe(self) -> tuple[bool, float]`. -/
def health_probe (b : SimulatedBackend) : (Bool × ℚ) × SimulatedBackend :=
  if !b.alive then ((false, 0), b)
  else
    let (u, r1) := b.rng.uniform (-1/10) (1/10)
    (b.healthProbeD u, { b with rng := r1 })

/-- `kill(self)`: fault injection, benchmark only. -/
def kill (b : SimulatedBackend) : SimulatedBackend := { b with alive := false }

/-- `revive(self)`: fault injection, benchmark only. -/
def revive (b : SimulatedBackend) : SimulatedBackend :=
  { b with alive := true, latency_multiplier := 1, error_rate := 0 }

/-- `degrade(self, latency_multiplier, error_rate)`: fault injection,
benchmark only. -/
def degrade (b : SimulatedBackend) (latency_multiplier error_rate : ℚ) :
    SimulatedBackend :=
  { b with latency_multiplier := latency_multiplier, error_rate := error_rate }

end SimulatedBackend

/-! ## The load balancer under test

The benchmark imports a `LoadBalancer` class from a workspace; the class is
not part of this repository.  It is embedded as an abstract state machine
over a caller-chosen state type: `tick` and `handle_request` may consult and
advance the backends handed to the balancer at construction (the harness owns
the array; in Python the balancer mutates the backends only through their
protocol methods). -/

/-- An arbitrary `LoadBalancer` implementation: construction, per-tick
maintenance, and request handling, as pure state transformers over the
balancer state `σ` and the backend array. -/
structure LbClass (σ : Type) where
  init : List SimulatedBackend → σ
  tick : σ → List SimulatedBackend → σ × List SimulatedBackend
  handle : σ → List SimulatedBackend → Request →
    σ × List SimulatedBackend × Response

/-- The benchmark-observable control fields of a backend: everything except
the pseudorandom stream position. -/
structure BackendCtl where
  name : String
  base_latency_ms : ℚ
  alive : Bool
  latency_multiplier : ℚ
  error_rate : ℚ
deriving DecidableEq, Repr

/-- Projection of a backend onto its control fields. -/
def SimulatedBackend.ctl (b : SimulatedBackend) : BackendCtl :=
  ⟨b.name, b.base_latency_ms, b.alive, b.latency_multiplier, b.error_rate⟩

/-- A balancer respects the `BackendHandle` protocol when its calls change
the backends only through `send_request` / `health_probe`, which advance the
pseudorandom stream but never the control fields (`alive`,
`latency_multiplier`, `error_rate`, …). -/
def LbClass.PreservesCtl {σ : Type} (c : LbClass σ) : Prop :=
  (∀ s bks, ((c.tick s bks).2.map SimulatedBackend.ctl) =
      bks.map SimulatedBackend.ctl) ∧
  (∀ s bks req, ((c.handle s bks req).2.1.map SimulatedBackend.ctl) =
      bks.map SimulatedBackend.ctl)

/-! ## `run_tick` (`src/tests/benchmarks/01_load_balancer.py`) -/

/-- `run_tick(lb, tick, requests)`: call `lb.tick()`, then
`lb.handle_request(req)` for each request in order, appending each response
to the result list. -/
def run_tick {σ : Type} (c : LbClass σ) (s : σ) (bks : List SimulatedBackend)
    (requests : List Request) : (σ × List SimulatedBackend) × List Response :=
  let (s1, b1) := c.tick s bks
  requests.foldl
    (fun acc req =>
      let h := c.handle acc.1.1 acc.1.2 req
      ((h.1, h.2.1), acc.2 ++ [h.2.2]))
    ((s1, b1), [])

/-- Observable call events of one simulation tick. -/
inductive LbEvent where
  | tickCall
  | handleCall (req : Request)
deriving DecidableEq, Repr

/-- `run_tick` instrumented with a ghost trace of the calls it makes, in
order: the `tick()` call is recorded first, then one `handle_request` event
per request. -/
def run_tick_instr {σ : Type} (c : LbClass σ) (s : σ)
    (bks : List SimulatedBackend) (requests : List Request) :
    ((σ × List SimulatedBackend) × List Response) × List LbEvent :=
  let (s1, b1) := c.tick s bks
  requests.foldl
    (fun acc req =>
      let h := c.handle acc.1.1.1 acc.1.1.2 req
      (((h.1, h.2.1), acc.1.2 ++ [h.2.2]), acc.2 ++ [LbEvent.handleCall req]))
    (((s1, b1), []), [LbEvent.tickCall])

/-- Specification recursion for the request loop: handle each request in
list order, threading the state, producing exactly one response per
request. -/
def handleSeq {σ : Type} (c : LbClass σ) (s : σ) (bks : List SimulatedBackend) :
    List Request → (σ × List SimulatedBackend) × List Response
  | [] => ((s, bks), [])
  | req :: rest =>
      let h := c.handle s bks req
      let tail := handleSeq c h.1 h.2.1 rest
      (tail.1, h.2.2 :: tail.2)

/-! ## Shed-rate ordering check (`scenario_priority_protection`) -/

end LoadBalancerBench

namespace WikiScripts

/-! ## `slugify` (`src/scripts/build_categories.py` and
`src/scripts/split_articles.py`)

Python strings are embedded as Lean `String`s; `str.lower`/`str.strip` are
modelled on the character classes Lean provides (the same model is used for
both copies, which is all the extensional-equality claim needs), and the two
regex substitutions are modelled as the character filter and run-collapse
they denote. -/

/-- `str.lower()`. -/
def pyLower (s : String) : String := s.map Char.toLower

/-- `str.strip()` with no argument: remove leading and trailing
whitespace. -/
def pyStrip (s : String) : String := s.trim

/-- Python's regex class `\w` (word character): alphanumeric or
underscore. -/
def isWordChar (c : Char) : Bool := c.isAlphanum || c = '_'

/-- Python's regex class `\s` (whitespace). -/
def isSpaceChar (c : Char) : Bool := c.isWhitespace

/-- `re.sub(r'[^\w\s-]', '', s)`: delete every character that is not a word
character, whitespace, or a hyphen. -/
def removeNonWordChars (s : String) : String :=
  String.mk (s.data.filter fun c => isWordChar c || isSpaceChar c || c = '-')

/-- `re.sub(r'[\s_]+', '_', ·)` on the character list: replace each maximal
run of whitespace/underscore characters by a single underscore. -/
def collapseRuns : List Char → List Char
  | [] => []
  | [c] => if isSpaceChar c || c = '_' then ['_'] else [c]
  | c :: d :: cs =>
      if isSpaceChar c || c = '_' then
        if isSpaceChar d || d = '_' then collapseRuns (d :: cs)
        else '_' :: collapseRuns (d :: cs)
      else c :: collapseRuns (d :: cs)

/-- `str.strip('_')`: remove leading and trailing underscores. -/
def stripUnderscores (l : List Char) : List Char :=
  ((l.dropWhile (· = '_')).reverse.dropWhile (· = '_')).reverse

/-- `slugify(title)` as defined in `scripts/build_categories.py`:
strip, lower, delete `[^\w\s-]`, collapse `[\s_]+` to `_`, strip `_`,
truncate to 200 characters. -/
def slugify_build_categories (title : String) : String :=
  let slug := pyLower (pyStrip title)
  let slug := removeNonWordChars slug
  let slug := String.mk (collapseRuns slug.data)
  let slug := String.mk (stripUnderscores slug.data)
  String.mk (slug.data.take 200)

/-- `slugify(title)` as defined in `scripts/split_articles.py`:
strip, lower, delete `[^\w\s-]`, collapse `[\s_]+` to `_`, strip `_`,
truncate to 200 characters. -/
def slugify_split_articles (title : String) : String :=
  let slug := pyLower (pyStrip title)
  let slug := removeNonWordChars slug
  let slug := String.mk (collapseRuns slug.data)
  let slug := String.mk (stripUnderscores slug.data)
  String.mk (slug.data.take 200)

end WikiScripts

namespace StripComments

/-! ## `strip_comments` (`src/eval/strip_comments.py`)

`tokenize.generate_tokens` is Python-stdlib code external to the repository,
so it is an opaque parameter returning either a token list or a
`TokenError`; only the token fields `strip_comments` reads are modelled. -/

/-- The fields of a `tokenize` token that `strip_comments` consults:
whether `tok.type == tokenize.COMMENT`, and `tok.start = (row, col)` with a
1-based row. -/
structure PyToken where
  isComment : Bool
  startRow : ℕ
  startCol : ℕ
deriving DecidableEq, Repr

/-- Helper for `source.splitlines(True)`: accumulate the current line in
reverse, emitting it (with its terminator) at each newline. -/
def splitlinesGo (acc : List Char) : List Char → List String
  | [] => if acc.isEmpty then [] else [String.mk acc.reverse]
  | c :: cs =>
      if c = '\n' then String.mk ((c :: acc).reverse) :: splitlinesGo [] cs
      else splitlinesGo (c :: acc) cs

/-- `source.splitlines(True)`: split into lines keeping the line ends. -/
def splitlinesKeepends (s : String) : List String := splitlinesGo [] s.data

/-- `str.rstrip()`: remove trailing whitespace. -/
def pyRstrip (s : String) : String :=
  String.mk (s.data.reverse.dropWhile Char.isWhitespace).reverse

/-- `strip_comments(source)`: collect the `(row-1, col)` start of every
COMMENT token, truncate each such line at the comment start (right-stripped,
newline restored, applied in reversed order), and drop blank lines.  If the
tokenizer raises `TokenError` the source is returned unchanged. -/
def strip_comments (tokenizer : String → Except Unit (List PyToken))
    (source : String) : String :=
  let lines := splitlinesKeepends source
  match tokenizer source with
  | .error _ => source
  | .ok toks =>
      let comment_positions :=
        (toks.filter (·.isComment)).map fun t => (t.startRow - 1, t.startCol)
      let lines := comment_positions.reverse.foldl
        (fun (ls : List String) (pos : ℕ × ℕ) =>
          if pos.1 < ls.length then
            ls.set pos.1
              (pyRstrip (String.mk ((ls.getD pos.1 "").data.take pos.2)) ++ "\n")
          else ls)
        lines
      String.join (lines.filter fun l => !(pyStripBlank l))
where
  /-- `line.strip()` is falsy, i.e. the line is blank. -/
  pyStripBlank (l : String) : Bool := l.trim.isEmpty

end StripComments

namespace LoadBalancerBench

namespace SpecSelector

/-! ## The Selector, modelled from the spec

The repository contains only the load balancer's contract (`types.py`) and
the benchmark harness; the `LoadBalancer` implementation itself — the
Selector of spec §4.2 whose `handle_request` produces the responses C1 is
about — is imported from an external workspace and is not under the
repository's sources.  The definitions in this namespace model it from the
spec's words. -/

/-- Modelled from the spec: the per-backend snapshot the missing Selector
implementation consults — unique `name`, cached routing weight, quarantine
flag, and the health estimates used for the CRITICAL last-ditch fallback
(§3 "Per-backend health record", §4.2 step 5). -/
structure BackendSnapshot where
  name : String
  weight_cache : ℚ
  quarantined : Bool
  ewma_error_rate : ℚ
  ewma_latency_ms : ℚ
deriving DecidableEq, Repr

/-- Modelled from the spec: the Selector's view of the balancer state — the
fixed ordered backend sequence (§3 "Backend identity") and the baseline
`Σ initial_weights_if_all_healthy` of §4.2 step 2. -/
structure SelectorState where
  backends : List BackendSnapshot
  baseline : ℚ

/-- Priority shedding thresholds of §4.2 step 3: BACKGROUND 0.20,
NORMAL 0.50, CRITICAL 0.85. -/
def threshold : Priority → ℚ
  | .BACKGROUND => 20/100
  | .NORMAL => 50/100
  | .CRITICAL => 85/100

/-- The cached weight of backend `i` (0 when out of range). -/
def weightOf (st : SelectorState) (i : ℕ) : ℚ :=
  ((st.backends.get? i).map (·.weight_cache)).getD 0

/-- §4.2 step 1: the eligible pool — indices of backends with
`weight_cache > 0` and not quarantined. -/
def eligiblePool (st : SelectorState) : List ℕ :=
  (List.range st.backends.length).filter fun i =>
    ((st.backends.get? i).map
      (fun b => decide (0 < b.weight_cache) && !b.quarantined)).getD false

/-- §4.2 step 2: shedding pressure
`P = 1 − (Σ weights) / (Σ initial_weights_if_all_healthy)`. -/
def pressure (st : SelectorState) : ℚ :=
  1 - ((eligiblePool st).map (weightOf st)).sum / st.baseline

/-- §4.2 step 4: weighted sampling — walk the pool's cumulative weights
with the scaled draw, the final element absorbing the remainder. -/
def pickWeightedGo (w : ℕ → ℚ) : List ℕ → ℚ → Option ℕ
  | [], _ => none
  | i :: rest, t =>
      if t < w i ∨ rest = [] then some i
      else pickWeightedGo w rest (t - w i)

/-- §4.2 step 4, under CRITICAL pressure: the single backend with the
highest weight. -/
def argmaxWeight (w : ℕ → ℚ) : List ℕ → Option ℕ
  | [] => none
  | i :: rest =>
      match argmaxWeight w rest with
      | none => some i
      | some j => some (if w j < w i then i else j)

/-- Indices of quarantined backends, for the last-ditch CRITICAL path. -/
def quarantinedPool (st : SelectorState) : List ℕ :=
  (List.range st.backends.length).filter fun i =>
    ((st.backends.get? i).map (·.quarantined)).getD false

/-- The (error-rate, latency) key of §4.2 step 5's "least-bad" order. -/
def errLatKey (st : SelectorState) (i : ℕ) : ℚ × ℚ :=
  match st.backends.get? i with
  | some b => (b.ewma_error_rate, b.ewma_latency_ms)
  | none => (0, 0)

/-- §4.2 step 5: the backend minimising (ewma_error_rate, then latency). -/
def leastBadGo (key : ℕ → ℚ × ℚ) : List ℕ → Option ℕ
  | [] => none
  | i :: rest =>
      match leastBadGo key rest with
      | none => some i
      | some j =>
          some (if (key i).1 < (key j).1 ∨
              ((key i).1 = (key j).1 ∧ (key i).2 ≤ (key j).2) then i else j)

/-- The least-bad quarantined backend (lowest `ewma_error_rate`, ties by
lowest latency). -/
def leastBad (st : SelectorState) : Option ℕ :=
  leastBadGo (errLatKey st) (quarantinedPool st)

/-- §4.2 terminal state 3 (Shed): `admitted=false`, `shed=true`, empty
backend name, zero latency. -/
def shedResponse (req : Request) : Response :=
  { request_id := req.id, admitted := false, success := false,
    backend_name := "", latency_ms := 0, shed := true }

/-- §4.2 step 6: invoke `send_request` on the chosen backend `i` (the
outcome oracle stands for the synchronous call) and build the admitted
response carrying that backend's name and the measured latency. -/
def invoke (st : SelectorState) (req : Request) (outcome : ℕ → Bool × ℚ)
    (i : ℕ) : Response × Option ℕ :=
  let r := outcome i
  ({ request_id := req.id, admitted := true, success := r.1,
     backend_name := ((st.backends.get? i).map (·.name)).getD "",
     latency_ms := r.2, shed := false }, some i)

/-- Modelled from the spec: `handle_request` of the missing Selector
implementation (§4.2).  `u` is the selection draw from the balancer's seeded
generator; `outcome i` the result of `send_request` on backend `i`.  Returns
the response together with the invoked backend's index (`none` when shed). -/
def handle_request (st : SelectorState) (req : Request) (u : ℚ)
    (outcome : ℕ → Bool × ℚ) : Response × Option ℕ :=
  let pool := eligiblePool st
  let P := pressure st
  if pool.isEmpty then
    if req.priority = .CRITICAL then
      match leastBad st with
      | some i => invoke st req outcome i
      | none => (shedResponse req, none)
    else (shedResponse req, none)
  else if threshold req.priority < P then (shedResponse req, none)
  else
    let choice :=
      if threshold .NORMAL < P then argmaxWeight (weightOf st) pool
      else pickWeightedGo (weightOf st) pool (u * (pool.map (weightOf st)).sum)
    match choice with
    | some i => invoke st req outcome i
    | none => (shedResponse req, none)

end SpecSelector

/-! ## Scenario drivers (`src/tests/benchmarks/01_load_balancer.py`)

Each benchmark scenario seeds a request generator with `seed`, builds
backends whose generators are seeded `seed + i`, constructs the balancer,
and then loops over ticks: inject faults, `make_requests`, `run_tick`.  The
per-tick request and response lists (from which every reported statistic is
computed) are logged; the ambient-entropy parameter is threaded to every
place the source could construct an unseeded `random.Random()`. -/

/-- `rng.choices([BACKGROUND, NORMAL, CRITICAL], weights)[0]`: map one draw
in `[0,1)` to a priority by cumulative weights. -/
def choicesPriority (w1 w2 w3 : ℚ) (u : ℚ) : Priority :=
  if u * (w1 + w2 + w3) < w1 then .BACKGROUND
  else if u * (w1 + w2 + w3) < w1 + w2 then .NORMAL
  else .CRITICAL

/-- The request-construction loop of `make_requests`: request `i` of the
tick draws a priority and gets `id = tick * 10000 + i`. -/
def make_requestsGo (tick : ℕ) (w : ℚ × ℚ × ℚ) :
    ℕ → ℕ → Rng → List Request × Rng
  | 0, _, rng => ([], rng)
  | n + 1, i, rng =>
      let (u, rng1) := rng.random
      let p := choicesPriority w.1 w.2.1 w.2.2 u
      let (rest, rng2) := make_requestsGo tick w n (i + 1) rng1
      (⟨(tick * 10000 + i : ℕ), p, (tick : ℕ)⟩ :: rest, rng2)

/-- `make_requests(tick, count, rng, priority_weights=(1, 1, 1))`. -/
def make_requests (tick count : ℕ) (rng : Rng) (w : ℚ × ℚ × ℚ) :
    List Request × Rng :=
  make_requestsGo tick w count 0 rng

/-- `backends[i].f(...)` for an in-place fault-injection method `f`:
replace backend `i` by `f backends[i]`. -/
def modifyBk (i : ℕ) (f : SimulatedBackend → SimulatedBackend)
    (bks : List SimulatedBackend) : List SimulatedBackend :=
  match bks.get? i with
  | some b => bks.set i (f b)
  | none => bks

/-- One tick's request and response lists, as observed by the scenario. -/
structure TickLog where
  reqs : List Request
  resps : List Response
deriving DecidableEq, Repr

/-- Loop state shared by the scenario embeddings. -/
structure ScenarioSt (σ : Type) where
  lb : σ
  bks : List SimulatedBackend
  rng : Rng
  log : List TickLog

/-- One scenario tick: inject this tick's faults, generate the tick's
requests from the scenario generator, run the tick, log it. -/
def scenarioStep {σ : Type} (c : LbClass σ)
    (faults : ℕ → List SimulatedBackend → List SimulatedBackend)
    (count : ℕ) (st : ScenarioSt σ) (tick : ℕ) : ScenarioSt σ :=
  let bks := faults tick st.bks
  let (reqs, rng1) := make_requests tick count st.rng (1, 1, 1)
  let out := run_tick c st.lb bks reqs
  { lb := out.1.1
    bks := out.1.2
    rng := rng1
    log := st.log ++ [⟨reqs, out.2⟩] }

/-- A scenario: construct the balancer on the given backends and fold the
per-tick step over `range(ticks)` with request generator `Random(seed)`. -/
def runScenario {σ : Type} (c : LbClass σ) (backends : List SimulatedBackend)
    (faults : ℕ → List SimulatedBackend → List SimulatedBackend)
    (count ticks seed : ℕ) : ScenarioSt σ :=
  (List.range ticks).foldl (scenarioStep c faults count)
    ⟨c.init backends, backends, mkRandom seed, []⟩

/-- `[SimulatedBackend(f"B{i}", base_latency_ms=50.0,
rng=random.Random(seed + i)) for i in range(n)]`. -/
def standardBackends (n seed entropy : ℕ) : List SimulatedBackend :=
  (List.range n).map fun i =>
    SimulatedBackend.init ("B" ++ toString i) 50 (some (mkRandom (seed + i)))
      entropy

/-- Scenario 1, steady state: 3 backends, no faults, 30 req/tick, 50
ticks. -/
def scenario_steady_state {σ : Type} (c : LbClass σ) (seed entropy : ℕ) :
    ScenarioSt σ :=
  runScenario c (standardBackends 3 seed entropy) (fun _ bks => bks) 30 50 seed

/-- Fault schedule of scenario 2: tick 10 `backends[0].degrade(6.0, 0.3)`,
tick 60 `backends[0].revive()`. -/
def degradationFaults (tick : ℕ) (bks : List SimulatedBackend) :
    List SimulatedBackend :=
  let bks := if tick = 10 then modifyBk 0 (·.degrade 6 (3/10)) bks else bks
  if tick = 60 then modifyBk 0 (·.revive) bks else bks

/-- Loop state of scenario 2, which additionally records the detection
statistics of the window `10 <= tick <= 60`. -/
structure DegradationSt (σ : Type) where
  lb : σ
  bks : List SimulatedBackend
  rng : Rng
  detection_tick : Option ℕ
  error_count : ℕ
  total_count : ℕ
  log : List TickLog

/-- One tick of scenario 2: faults, requests, `run_tick`, then — within the
window — accumulate backend 0's admitted share, the admitted total and the
errors routed to backend 0, recording `detection_tick` the first time the
share of admitted traffic on backend 0 drops below `0.20`. -/
def degStep {σ : Type} (c : LbClass σ) (st : DegradationSt σ) (tick : ℕ) :
    DegradationSt σ :=
  let bks := degradationFaults tick st.bks
  let (reqs, rng1) := make_requests tick 30 st.rng (1, 1, 1)
  let out := run_tick c st.lb bks reqs
  let resps := out.2
  let base : DegradationSt σ :=
    { st with
      lb := out.1.1
      bks := out.1.2
      rng := rng1
      log := st.log ++ [⟨reqs, resps⟩] }
  if 10 ≤ tick ∧ tick ≤ 60 then
    let b0name := ((out.1.2.head?).map (·.name)).getD ""
    let b0_count :=
      (resps.filter fun r => decide (r.backend_name = b0name) && r.admitted).length
    let total_count := (resps.filter (·.admitted)).length
    let errors := (resps.filter fun r =>
      decide (r.backend_name = b0name) && r.admitted && !r.success).length
    { base with
      total_count := st.total_count + total_count
      error_count := st.error_count + errors
      detection_tick :=
        if st.detection_tick = none ∧ 0 < total_count ∧
            (b0_count : ℚ) / (total_count : ℚ) < 20/100 then some tick
        else st.detection_tick }
  else base

/-- The state of scenario 2 after its first `t` ticks. -/
def degStateAt {σ : Type} (c : LbClass σ) (seed entropy t : ℕ) :
    DegradationSt σ :=
  (List.range t).foldl (degStep c)
    { lb := c.init (standardBackends 3 seed entropy)
      bks := standardBackends 3 seed entropy
      rng := mkRandom seed
      detection_tick := none, error_count := 0, total_count := 0, log := [] }

/-- Scenario 2, degradation detection: 3 backends, 30 req/tick, 80 ticks,
with the fault schedule `degradationFaults`. -/
def scenario_degradation_detection {σ : Type} (c : LbClass σ)
    (seed entropy : ℕ) : DegradationSt σ :=
  degStateAt c seed entropy 80

/-- Fault schedule of scenario 3: tick 10 kill `B0`, tick 30
`B1.degrade(4.0, 0.25)`, tick 60 kill `B1`, tick 80 revive both. -/
def priorityFaults (tick : ℕ) (bks : List SimulatedBackend) :
    List SimulatedBackend :=
  let bks := if tick = 10 then modifyBk 0 (·.kill) bks else bks
  let bks := if tick = 30 then modifyBk 1 (·.degrade 4 (25/100)) bks else bks
  let bks := if tick = 60 then modifyBk 1 (·.kill) bks else bks
  if tick = 80 then modifyBk 1 (·.revive) (modifyBk 0 (·.revive) bks) else bks

/-- Scenario 3, priority protection: 3 backends, 40 req/tick, 100 ticks. -/
def scenario_priority_protection {σ : Type} (c : LbClass σ)
    (seed entropy : ℕ) : ScenarioSt σ :=
  runScenario c (standardBackends 3 seed entropy) priorityFaults 40 100 seed

/-- Fault schedule of scenario 4: tick 5 kill `B0` and `B1`, tick 30 revive
`B0`, tick 50 revive `B1`. -/
def recoveryFaults (tick : ℕ) (bks : List SimulatedBackend) :
    List SimulatedBackend :=
  let bks := if tick = 5 then modifyBk 1 (·.kill) (modifyBk 0 (·.kill) bks)
    else bks
  let bks := if tick = 30 then modifyBk 0 (·.revive) bks else bks
  if tick = 50 then modifyBk 1 (·.revive) bks else bks

/-- Scenario 4, recovery smoothness: 3 backends, 30 req/tick, 80 ticks. -/
def scenario_recovery_smoothness {σ : Type} (c : LbClass σ)
    (seed entropy : ℕ) : ScenarioSt σ :=
  runScenario c (standardBackends 3 seed entropy) recoveryFaults 30 80 seed

/-- Fault schedule of scenario 5: tick 10 kill `B0`, tick 25
`B1.degrade(3.0, 0.2)`, tick 40 `B1.degrade(6.0, 0.5)`, tick 60 revive
both. -/
def cascadeFaults (tick : ℕ) (bks : List SimulatedBackend) :
    List SimulatedBackend :=
  let bks := if tick = 10 then modifyBk 0 (·.kill) bks else bks
  let bks := if tick = 25 then modifyBk 1 (·.degrade 3 (2/10)) bks else bks
  let bks := if tick = 40 then modifyBk 1 (·.degrade 6 (5/10)) bks else bks
  if tick = 60 then modifyBk 1 (·.revive) (modifyBk 0 (·.revive) bks) else bks

/-- Scenario 5, cascading failure: 4 backends, 50 req/tick, 80 ticks. -/
def scenario_cascading_failure {σ : Type} (c : LbClass σ)
    (seed entropy : ℕ) : ScenarioSt σ :=
  runScenario c (standardBackends 4 seed entropy) cascadeFaults 50 80 seed

/-- Fault schedule of scenario 6: during ticks 10–60 backend `B0`
alternates every 3 ticks between `degrade(5.0, 0.3)` and `revive`; tick 61
revives it for good. -/
def flappingFaults (tick : ℕ) (bks : List SimulatedBackend) :
    List SimulatedBackend :=
  let bks :=
    if 10 ≤ tick ∧ tick ≤ 60 then
      if (tick - 10) / 3 % 2 = 0 then modifyBk 0 (·.degrade 5 (3/10)) bks
      else modifyBk 0 (·.revive) bks
    else bks
  if tick = 61 then modifyBk 0 (·.revive) bks else bks

/-- Scenario 6, flapping: 3 backends, 30 req/tick, 80 ticks. -/
def scenario_flapping {σ : Type} (c : LbClass σ) (seed entropy : ℕ) :
    ScenarioSt σ :=
  runScenario c (standardBackends 3 seed entropy) flappingFaults 30 80 seed

/-- The backends of scenario 7: `Fast` at 20 ms with `Random(seed)`,
`Medium` at 50 ms with `Random(seed + 1)`, `Slow` at 150 ms with
`Random(seed + 2)`. -/
def asymmetricBackends (seed entropy : ℕ) : List SimulatedBackend :=
  [SimulatedBackend.init "Fast" 20 (some (mkRandom seed)) entropy,
   SimulatedBackend.init "Medium" 50 (some (mkRandom (seed + 1))) entropy,
   SimulatedBackend.init "Slow" 150 (some (mkRandom (seed + 2))) entropy]

/-- Scenario 7, asymmetric backends: latencies 20/50/150 ms, no faults,
30 req/tick, 60 ticks. -/
def scenario_asymmetric {σ : Type} (c : LbClass σ) (seed entropy : ℕ) :
    ScenarioSt σ :=
  runScenario c (asymmetricBackends seed entropy) (fun _ bks => bks) 30 60 seed

/-- `run_all(lb_class, seed)`, reduced to its observable per-scenario tick
logs: every statistic the JSON report contains is a pure, draw-free
function of these logs and the scenario weights. -/
def run_all {σ : Type} (c : LbClass σ) (seed entropy : ℕ) :
    List (List TickLog) :=
  [(scenario_steady_state c seed entropy).log,
   (scenario_degradation_detection c seed entropy).log,
   (scenario_priority_protection c seed entropy).log,
   (scenario_recovery_smoothness c seed entropy).log,
   (scenario_cascading_failure c seed entropy).log,
   (scenario_flapping c seed entropy).log,
   (scenario_asymmetric c seed entropy).log]

/-! ## Detection-tick specification for scenario 2 -/

/-- Whether one tick's responses witness detection: some response was
admitted and backend `B0`'s share of admitted responses is below `0.20`. -/
def detectCondB (resps : List Response) : Bool :=
  decide (0 < (resps.filter (·.admitted)).length) &&
  decide
    ((((resps.filter fun r => decide (r.backend_name = "B0") && r.admitted).length : ℚ)
        / ((resps.filter (·.admitted)).length : ℚ)) < 20/100)

/-- Whether tick `t` of a logged run witnesses detection. -/
def detectAt (log : List TickLog) (t : ℕ) : Bool :=
  ((log.get? t).map fun tl => detectCondB tl.resps).getD false

/-- The first tick in the window `[10, 60]` whose responses witness
detection. -/
def firstDetectionTick (log : List TickLog) : Option ℕ :=
  (((List.range 80).filter fun t => decide (10 ≤ t) && decide (t ≤ 60)).find?
    fun t => detectAt log t)

/-- Control fields of a healthy 50 ms backend named `B0`. -/
def healthyCtlB0 : BackendCtl := ⟨"B0", 50, true, 1, 0⟩

/-- Control fields of backend `B0` once degraded to 6× latency and 30%
errors. -/
def degradedCtlB0 : BackendCtl := ⟨"B0", 50, true, 6, 3/10⟩

/-- Backend `B0`'s control fields after the first `k` ticks of scenario 2
have been processed: the degradation of tick 10 is visible from state 11 on,
the revival of tick 60 from state 61 on. -/
def degCtlAfter (k : ℕ) : BackendCtl :=
  if 11 ≤ k ∧ k ≤ 60 then degradedCtlB0 else healthyCtlB0

/-- A minimal protocol-respecting balancer: stateless, never touches the
backends, sheds every request. -/
def shedAllLb : LbClass Unit where
  init := fun _ => ()
  tick := fun s bks => (s, bks)
  handle := fun s bks req =>
    (s, bks,
      { request_id := req.id, admitted := false, success := false,
        backend_name := "", latency_ms := 0, shed := true })

end LoadBalancerBench

namespace LoadBalancerBench

/-! ## Theorems -/

/-- **C8.** The `Priority` type is a totally ordered enumeration with exactly
three values `BACKGROUND = 1`, `NORMAL = 2`, `CRITICAL = 3`; the `IntEnum`
order satisfies `BACKGROUND < NORMAL < CRITICAL`, and comparing by value is a
(decidable) total order on the three members: it is irreflexive, transitive,
and any two distinct members are strictly comparable, with higher value
meaning higher priority. -/
theorem priority_is_three_valued_total_order :
    (∀ p : Priority, p = .BACKGROUND ∨ p = .NORMAL ∨ p = .CRITICAL) ∧
    Priority.val .BACKGROUND = 1 ∧ Priority.val .NORMAL = 2 ∧
      Priority.val .CRITICAL = 3 ∧
    Priority.lt .BACKGROUND .NORMAL ∧ Priority.lt .NORMAL .CRITICAL ∧
    (∀ p : Priority, ¬ Priority.lt p p) ∧
    (∀ p q r : Priority, Priority.lt p q → Priority.lt q r → Priority.lt p r) ∧
    (∀ p q : Priority, p ≠ q → Priority.lt p q ∨ Priority.lt q p) := by
  refine ⟨?_, rfl, rfl, rfl, by decide, by decide, ?_, ?_, ?_⟩
  · intro p; cases p <;> simp
  · intro p; cases p <;> decide
  · intro p q r; cases p <;> cases q <;> cases r <;> decide
  · intro p q; cases p <;> cases q <;> decide

/-- **C5.** For a `SimulatedBackend` with non-negative `base_latency_ms` and
non-negative `latency_multiplier`, and any jitter draw in `[-0.1, 0.1]`,
`send_request` returns a non-negative `latency_ms` whatever the error draw;
and a backend that is not alive returns `(False, 0.0)`. -/
theorem send_request_latency_nonneg (b : SimulatedBackend) (u e : ℚ)
    (hbase : 0 ≤ b.base_latency_ms) (hmult : 0 ≤ b.latency_multiplier)
    (hu : -1/10 ≤ u ∧ u ≤ 1/10) :
    0 ≤ (b.sendRequestD u e).2 ∧
      (b.alive = false → b.sendRequestD u e = (false, 0)) := by
  constructor
  · unfold SimulatedBackend.sendRequestD
    rcases hu with ⟨hu1, _⟩
    have hj : (0 : ℚ) ≤ 1 + u := by linarith
    have hlat : 0 ≤ b.base_latency_ms * b.latency_multiplier * (1 + u) :=
      mul_nonneg (mul_nonneg hbase hmult) hj
    rcases h : b.alive with _ | _
    · simp [h]
    · simp only [h, Bool.not_true, Bool.false_eq_true, if_false]
      split <;> simpa
  · intro h
    unfold SimulatedBackend.sendRequestD
    simp [h]

/-- Witness for C5 at a concrete backend and draws. -/
theorem send_request_latency_nonneg_witness :
    0 ≤ (SimulatedBackend.sendRequestD
        ⟨"B0", 50, mkRandom 42, true, 1, 0⟩ (1/20) (1/2)).2 ∧
      ((⟨"B0", 50, mkRandom 42, true, 1, 0⟩ : SimulatedBackend).alive = false →
        SimulatedBackend.sendRequestD
          ⟨"B0", 50, mkRandom 42, true, 1, 0⟩ (1/20) (1/2) = (false, 0)) :=
  send_request_latency_nonneg ⟨"B0", 50, mkRandom 42, true, 1, 0⟩ (1/20) (1/2)
    (by norm_num) (by norm_num) (by norm_num)

/-- **C6.** For an alive `SimulatedBackend` with positive `base_latency_ms`
and positive `latency_multiplier`, every latency `health_probe` can return is
at most `0.11 · base · multiplier`, every latency `send_request` can return
is at least `0.9 · base · multiplier`, and hence every probe latency is
strictly below every request latency in the same state. -/
theorem health_probe_cheaper_than_send_request (b : SimulatedBackend)
    (u₁ u₂ e : ℚ) (halive : b.alive = true)
    (hbase : 0 < b.base_latency_ms) (hmult : 0 < b.latency_multiplier)
    (hu₁ : -1/10 ≤ u₁ ∧ u₁ ≤ 1/10) (hu₂ : -1/10 ≤ u₂ ∧ u₂ ≤ 1/10) :
    (b.healthProbeD u₁).2 ≤ (11/100) * b.base_latency_ms * b.latency_multiplier ∧
    (9/10) * b.base_latency_ms * b.latency_multiplier ≤ (b.sendRequestD u₂ e).2 ∧
    (b.healthProbeD u₁).2 < (b.sendRequestD u₂ e).2 := by
  have hbm : 0 < b.base_latency_ms * b.latency_multiplier := mul_pos hbase hmult
  have hprobe : (b.healthProbeD u₁).2 =
      b.base_latency_ms * b.latency_multiplier * (1/10) * (1 + u₁) := by
    unfold SimulatedBackend.healthProbeD
    simp [halive]
  have hsend : (b.sendRequestD u₂ e).2 =
      b.base_latency_ms * b.latency_multiplier * (1 + u₂) := by
    unfold SimulatedBackend.sendRequestD
    simp only [halive, Bool.not_true, Bool.false_eq_true, if_false]
    split <;> rfl
  rcases hu₁ with ⟨hu₁l, hu₁r⟩
  rcases hu₂ with ⟨hu₂l, hu₂r⟩
  refine ⟨?_, ?_, ?_⟩
  · rw [hprobe]; nlinarith
  · rw [hsend]; nlinarith
  · rw [hprobe, hsend]; nlinarith

/-- The request loop of `run_tick` is the specification recursion
`handleSeq` with a response accumulator. -/
lemma run_tick_foldl_eq_handleSeq {σ : Type} (c : LbClass σ)
    (reqs : List Request) (s : σ) (bks : List SimulatedBackend)
    (acc : List Response) :
    reqs.foldl
      (fun acc req =>
        let h := c.handle acc.1.1 acc.1.2 req
        ((h.1, h.2.1), acc.2 ++ [h.2.2]))
      ((s, bks), acc) =
    ((handleSeq c s bks reqs).1, acc ++ (handleSeq c s bks reqs).2) := by
  induction reqs generalizing s bks acc with
  | nil => simp [handleSeq]
  | cons req rest ih =>
      simp only [List.foldl_cons, handleSeq]
      rw [ih]
      simp

/-- The instrumented request loop of `run_tick_instr` computes the same
result as `handleSeq` and appends one `handleCall` event per request. -/
lemma run_tick_instr_foldl_eq {σ : Type} (c : LbClass σ)
    (reqs : List Request) (s : σ) (bks : List SimulatedBackend)
    (acc : List Response) (evs : List LbEvent) :
    reqs.foldl
      (fun acc req =>
        let h := c.handle acc.1.1.1 acc.1.1.2 req
        (((h.1, h.2.1), acc.1.2 ++ [h.2.2]), acc.2 ++ [LbEvent.handleCall req]))
      (((s, bks), acc), evs) =
    (((handleSeq c s bks reqs).1, acc ++ (handleSeq c s bks reqs).2),
      evs ++ reqs.map LbEvent.handleCall) := by
  induction reqs generalizing s bks acc evs with
  | nil => simp [handleSeq]
  | cons req rest ih =>
      simp only [List.foldl_cons, handleSeq, List.map_cons]
      rw [ih]
      simp

/-- One response per request, threading state in order. -/
lemma handleSeq_length {σ : Type} (c : LbClass σ) (s : σ)
    (bks : List SimulatedBackend) (reqs : List Request) :
    (handleSeq c s bks reqs).2.length = reqs.length := by
  induction reqs generalizing s bks with
  | nil => rfl
  | cons req rest ih => simp [handleSeq, ih]

/-- **C2.** For every tick and request list, `run_tick` makes exactly one
`tick()` call, recorded before every `handle_request` call of that tick and
with one `handle_request` call per request in list order; its response list
is exactly the specification recursion `handleSeq` started from the
post-`tick` state — one response per request, in request order — and in
particular has the same length as the request list. -/
theorem run_tick_one_tick_then_one_response_per_request {σ : Type}
    (c : LbClass σ) (s : σ) (bks : List SimulatedBackend)
    (reqs : List Request) :
    (run_tick_instr c s bks reqs).2 =
      LbEvent.tickCall :: reqs.map LbEvent.handleCall ∧
    (run_tick_instr c s bks reqs).1 = run_tick c s bks reqs ∧
    (run_tick c s bks reqs).2 =
      (handleSeq c (c.tick s bks).1 (c.tick s bks).2 reqs).2 ∧
    (run_tick c s bks reqs).2.length = reqs.length := by
  unfold run_tick_instr run_tick
  rcases htick : c.tick s bks with ⟨s1, b1⟩
  have hinstr := run_tick_instr_foldl_eq c reqs s1 b1
    ([] : List Response) [LbEvent.tickCall]
  have hplain := run_tick_foldl_eq_handleSeq c reqs s1 b1 ([] : List Response)
  refine ⟨?_, ?_, ?_, ?_⟩ <;>
    simp [hinstr, hplain, handleSeq_length]

/-- Witness for C6 at a concrete backend and draws. -/
theorem health_probe_cheaper_witness :
    (SimulatedBackend.healthProbeD
        ⟨"B0", 50, mkRandom 42, true, 1, 0⟩ (1/10)).2 ≤
      (11/100) * 50 * 1 ∧
    (9/10) * 50 * 1 ≤
      (SimulatedBackend.sendRequestD
        ⟨"B0", 50, mkRandom 42, true, 1, 0⟩ (-1/10) (1/2)).2 ∧
    (SimulatedBackend.healthProbeD
        ⟨"B0", 50, mkRandom 42, true, 1, 0⟩ (1/10)).2 <
      (SimulatedBackend.sendRequestD
        ⟨"B0", 50, mkRandom 42, true, 1, 0⟩ (-1/10) (1/2)).2 :=
  health_probe_cheaper_than_send_request
    ⟨"B0", 50, mkRandom 42, true, 1, 0⟩ (1/10) (-1/10) (1/2)
    rfl (by norm_num) (by norm_num) (by norm_num) (by norm_num)

/-- **C4.** For every load balancer class (a deterministic state machine by
embedding) and every seed, `run_all`'s observable behaviour — the per-tick
request and response logs of all seven scenarios, of which every reported
statistic is a pure function — does not depend on the ambient-entropy
source: every generator the scenarios construct (the per-scenario request
generator and each backend's jitter/error generator) is seeded only from
`seed`, and the `rng or random.Random()` fallback of
`SimulatedBackend.__init__`, the one place ambient randomness could enter,
is never taken.  Hence two invocations with the same class and seed produce
equal reports. -/
theorem run_all_reproducible_from_seed {σ : Type} (c : LbClass σ)
    (seed e₁ e₂ : ℕ) :
    run_all c seed e₁ = run_all c seed e₂ := rfl

/-- `find?` only depends on the predicate's values on the list. -/
lemma find?_congr {α : Type} (l : List α) (p q : α → Bool)
    (h : ∀ x ∈ l, p x = q x) : l.find? p = l.find? q := by
  induction l with
  | nil => rfl
  | cons a l ih =>
      rw [List.find?_cons, List.find?_cons, h a (List.mem_cons_self a l)]
      cases hq : q a
      · exact ih fun x hx => h x (List.mem_cons_of_mem _ hx)
      · rfl

/-- The request loop preserves every backend's control fields when the
balancer respects the `BackendHandle` protocol. -/
lemma handleSeq_preserves_ctl {σ : Type} (c : LbClass σ)
    (hp : c.PreservesCtl) (s : σ) (bks : List SimulatedBackend)
    (reqs : List Request) :
    ((handleSeq c s bks reqs).1.2).map SimulatedBackend.ctl =
      bks.map SimulatedBackend.ctl := by
  induction reqs generalizing s bks with
  | nil => rfl
  | cons req rest ih =>
      simp only [handleSeq]
      rw [ih]
      exact hp.2 s bks req

/-- `run_tick` preserves every backend's control fields when the balancer
respects the `BackendHandle` protocol. -/
lemma run_tick_preserves_ctl {σ : Type} (c : LbClass σ) (hp : c.PreservesCtl)
    (s : σ) (bks : List SimulatedBackend) (reqs : List Request) :
    ((run_tick c s bks reqs).1.2).map SimulatedBackend.ctl =
      bks.map SimulatedBackend.ctl := by
  unfold run_tick
  rcases htick : c.tick s bks with ⟨s1, b1⟩
  dsimp only
  rw [run_tick_foldl_eq_handleSeq c reqs s1 b1 ([] : List Response)]
  have h1 := handleSeq_preserves_ctl c hp s1 b1 reqs
  have h2 := hp.1 s bks
  rw [htick] at h2
  simpa [h1] using h2

/-- Control-field preservation of the whole array yields preservation of
the head backend's control fields. -/
lemma map_ctl_head {l₁ l₂ : List SimulatedBackend}
    (h : l₁.map SimulatedBackend.ctl = l₂.map SimulatedBackend.ctl) :
    l₁.head?.map SimulatedBackend.ctl = l₂.head?.map SimulatedBackend.ctl := by
  have hh := congrArg List.head? h
  simpa [List.head?_map] using hh

/-- In-place mutation of backend 0 acts on the head of the list. -/
lemma modifyBk_zero_head (f : SimulatedBackend → SimulatedBackend)
    (bks : List SimulatedBackend) :
    (modifyBk 0 f bks).head? = bks.head?.map f := by
  cases bks with
  | nil => rfl
  | cons b rest => rfl

/-- Backend `B0`'s scheduled control fields always carry the name `B0`. -/
lemma degCtlAfter_name (k : ℕ) : (degCtlAfter k).name = "B0" := by
  unfold degCtlAfter healthyCtlB0 degradedCtlB0
  split_ifs <;> rfl

/-- Appending a tick log does not change earlier ticks' detection test. -/
lemma detectAt_append (log : List TickLog) (tl : TickLog) (t : ℕ)
    (ht : t < log.length) :
    detectAt (log ++ [tl]) t = detectAt log t := by
  unfold detectAt
  rw [List.get?_append ht]

/-- The freshly appended tick log's detection test reads that tick's
responses. -/
lemma detectAt_concat_self (log : List TickLog) (tl : TickLog) :
    detectAt (log ++ [tl]) log.length = detectCondB tl.resps := by
  unfold detectAt
  rw [List.get?_concat_length]
  rfl

/-- Fault injection of scenario 2 moves backend 0's control fields from
their state-`k` schedule to their state-`(k+1)` schedule. -/
lemma degradationFaults_head_ctl_of (k : ℕ) (bks : List SimulatedBackend)
    (h : (bks.head?).map SimulatedBackend.ctl = some (degCtlAfter k)) :
    ((degradationFaults k bks).head?).map SimulatedBackend.ctl =
      some (degCtlAfter (k + 1)) := by
  cases bks with
  | nil => simp at h
  | cons b rest =>
      simp only [List.head?, Option.map_some] at h
      have hb : b.ctl = degCtlAfter k := by injection h
      unfold degradationFaults
      by_cases h10 : k = 10
      · subst h10
        have hb' : b.ctl = healthyCtlB0 := by
          rw [hb]
          unfold degCtlAfter
          rw [if_neg (by omega)]
        have h1 := congrArg BackendCtl.name hb'
        have h2 := congrArg BackendCtl.base_latency_ms hb'
        have h3 := congrArg BackendCtl.alive hb'
        simp only [SimulatedBackend.ctl, healthyCtlB0] at h1 h2 h3
        have hdeg : (b.degrade 6 (3/10)).ctl = degradedCtlB0 := by
          simp [SimulatedBackend.degrade, SimulatedBackend.ctl, degradedCtlB0,
            h1, h2, h3]
        have hd11 : degCtlAfter (10 + 1) = degradedCtlB0 := by
          unfold degCtlAfter
          rw [if_pos (by omega)]
        simp [modifyBk_zero_head, hdeg, hd11]
      · by_cases h60 : k = 60
        · subst h60
          have h1 : b.name = "B0" := by
            have := congrArg BackendCtl.name hb
            simpa [SimulatedBackend.ctl, degCtlAfter_name] using this
          have h2' : b.base_latency_ms = 50 := by
            have h2 := congrArg BackendCtl.base_latency_ms hb
            have hbase : (degCtlAfter 60).base_latency_ms = 50 := by
              unfold degCtlAfter healthyCtlB0 degradedCtlB0
              split_ifs <;> rfl
            simpa [SimulatedBackend.ctl, hbase] using h2
          have hrev : b.revive.ctl = healthyCtlB0 := by
            simp [SimulatedBackend.revive, SimulatedBackend.ctl, healthyCtlB0,
              h1, h2']
          have hd61 : degCtlAfter (60 + 1) = healthyCtlB0 := by
            unfold degCtlAfter
            rw [if_neg (by omega)]
          simp [modifyBk_zero_head, hrev, hd61]
        · have hsame : degCtlAfter (k + 1) = degCtlAfter k := by
            unfold degCtlAfter
            by_cases hin : 11 ≤ k ∧ k ≤ 60
            · rw [if_pos (by omega), if_pos hin]
            · rw [if_neg (by omega), if_neg hin]
          simp [h10, h60, hsame, hb]

/-- `find?` on a one-element list. -/
lemma find?_singleton {α : Type} (p : α → Bool) (a : α) :
    [a].find? p = if p a then some a else none := by
  cases h : p a <;> simp [List.find?, h]

/-- Joint invariant of scenario 2's loop after `k` ticks: backend 0's
control fields follow the fault schedule, the log holds one entry per
processed tick, and the recorded `detection_tick` is the first logged tick
of the window `[10, 60]` whose responses witness detection. -/
lemma degStateAt_invariant {σ : Type} (c : LbClass σ) (hp : c.PreservesCtl)
    (seed entropy : ℕ) (k : ℕ) :
    ((degStateAt c seed entropy k).bks.head?).map SimulatedBackend.ctl =
        some (degCtlAfter k) ∧
    (degStateAt c seed entropy k).log.length = k ∧
    (degStateAt c seed entropy k).detection_tick =
      (((List.range k).filter fun t => decide (10 ≤ t) && decide (t ≤ 60)).find?
        fun t => detectAt (degStateAt c seed entropy k).log t) := by
  induction k with
  | zero =>
      refine ⟨?_, rfl, rfl⟩
      have h0 : degCtlAfter 0 = healthyCtlB0 := by
        unfold degCtlAfter
        rw [if_neg (by omega)]
      rw [h0]
      rfl
  | succ k ih =>
      set st := degStateAt c seed entropy k with hst
      obtain ⟨iha, ihl, ihd⟩ := ih
      have hstep : degStateAt c seed entropy (k + 1) = degStep c st k := by
        rw [hst]
        unfold degStateAt
        rw [List.range_succ, List.foldl_append, List.foldl_cons, List.foldl_nil]
      rcases hmr : make_requests k 30 st.rng (1, 1, 1) with ⟨reqs, rng1⟩
      have hfault := degradationFaults_head_ctl_of k st.bks iha
      have hpres : (((run_tick c st.lb (degradationFaults k st.bks)
            reqs).1.2).map SimulatedBackend.ctl) =
          (degradationFaults k st.bks).map SimulatedBackend.ctl :=
        run_tick_preserves_ctl c hp _ _ _
      have hhead : ((((run_tick c st.lb (degradationFaults k st.bks)
            reqs).1.2).head?).map SimulatedBackend.ctl) =
          some (degCtlAfter (k + 1)) := by
        rw [map_ctl_head hpres]
        exact hfault
      have hname : (((((run_tick c st.lb (degradationFaults k st.bks)
            reqs).1.2).head?).map (fun b => b.name)).getD "") = "B0" := by
        rcases hh : ((run_tick c st.lb (degradationFaults k st.bks)
            reqs).1.2).head? with _ | b'
        · rw [hh] at hhead
          simp at hhead
        · rw [hh] at hhead
          have hb' : b'.ctl = degCtlAfter (k + 1) := by
            simpa using hhead
          have := congrArg BackendCtl.name hb'
          simpa [SimulatedBackend.ctl, degCtlAfter_name] using this
      rw [hstep]
      unfold degStep
      rw [hmr]
      dsimp only
      by_cases hw : 10 ≤ k ∧ k ≤ 60
      · rw [if_pos hw]
        have hwnd : (decide (10 ≤ k) && decide (k ≤ 60)) = true := by
          simp [hw.1, hw.2]
        refine ⟨hhead, by simp [ihl], ?_⟩
        rw [hname]
        rw [List.range_succ, List.filter_append, List.find?_append]
        have hcongr :
            (((List.range k).filter fun t =>
                decide (10 ≤ t) && decide (t ≤ 60)).find?
              fun t => detectAt (st.log ++
                [⟨reqs, (run_tick c st.lb (degradationFaults k st.bks)
                  reqs).2⟩]) t) =
            (((List.range k).filter fun t =>
                decide (10 ≤ t) && decide (t ≤ 60)).find?
              fun t => detectAt st.log t) := by
          apply find?_congr
          intro t htmem
          have ht : t < k := List.mem_range.mp (List.mem_filter.mp htmem).1
          exact detectAt_append st.log _ t (by rw [ihl]; exact ht)
        rw [hcongr, ← ihd]
        have hfilt : (([k] : List ℕ).filter fun t =>
            decide (10 ≤ t) && decide (t ≤ 60)) = [k] := by
          simp [List.filter, hwnd]
        rw [hfilt, find?_singleton]
        have hlast : detectAt (st.log ++
            [⟨reqs, (run_tick c st.lb (degradationFaults k st.bks)
              reqs).2⟩]) k = detectCondB
            (run_tick c st.lb (degradationFaults k st.bks) reqs).2 := by
          rw [← ihl]
          exact detectAt_concat_self st.log _
        rw [hlast]
        rcases hdet : st.detection_tick with _ | j
        · simp only [hdet, true_and]
          have hcb : (detectCondB
              (run_tick c st.lb (degradationFaults k st.bks) reqs).2 = true) ↔
              (0 < ((run_tick c st.lb (degradationFaults k st.bks)
                  reqs).2.filter (fun r => r.admitted)).length ∧
               ((((run_tick c st.lb (degradationFaults k st.bks)
                    reqs).2.filter fun r =>
                      decide (r.backend_name = "B0") && r.admitted).length : ℚ) /
                  (((run_tick c st.lb (degradationFaults k st.bks)
                    reqs).2.filter (fun r => r.admitted)).length : ℚ)) <
                  20/100) := by
            unfold detectCondB
            rw [Bool.and_eq_true]
            simp
          by_cases hcond : (0 < ((run_tick c st.lb (degradationFaults k st.bks)
                reqs).2.filter (fun r => r.admitted)).length ∧
              ((((run_tick c st.lb (degradationFaults k st.bks)
                   reqs).2.filter fun r =>
                     decide (r.backend_name = "B0") && r.admitted).length : ℚ) /
                 (((run_tick c st.lb (degradationFaults k st.bks)
                   reqs).2.filter (fun r => r.admitted)).length : ℚ)) <
                 20/100)
          · rw [if_pos hcond, if_pos (hcb.mpr hcond)]
            simp [Option.or]
          · rw [if_neg hcond, if_neg (by
              intro hcb'
              exact hcond (hcb.mp hcb'))]
            simp [Option.or]
        · simp only [hdet]
          rw [if_neg (by simp)]
          rfl
      · rw [if_neg hw]
        refine ⟨hhead, by simp [ihl], ?_⟩
        rw [List.range_succ, List.filter_append, List.find?_append]
        have hfilt : (([k] : List ℕ).filter fun t =>
            decide (10 ≤ t) && decide (t ≤ 60)) = [] := by
          have : (decide (10 ≤ k) && decide (k ≤ 60)) = false := by
            rcases Decidable.em (10 ≤ k) with h1 | h1
            · have h2 : ¬ k ≤ 60 := fun h2 => hw ⟨h1, h2⟩
              simp [h2]
            · simp [h1]
          simp [List.filter, this]
        rw [hfilt]
        have hcongr :
            (((List.range k).filter fun t =>
                decide (10 ≤ t) && decide (t ≤ 60)).find?
              fun t => detectAt (st.log ++
                [⟨reqs, (run_tick c st.lb (degradationFaults k st.bks)
                  reqs).2⟩]) t) =
            (((List.range k).filter fun t =>
                decide (10 ≤ t) && decide (t ≤ 60)).find?
              fun t => detectAt st.log t) := by
          apply find?_congr
          intro t htmem
          have ht : t < k := List.mem_range.mp (List.mem_filter.mp htmem).1
          exact detectAt_append st.log _ t (by rw [ihl]; exact ht)
        rw [hcongr, ← ihd]
        rcases hdet : st.detection_tick with _ | j <;> simp [hdet]

/-- **C7.** In the degradation-detection scenario, run with any balancer
that respects the `BackendHandle` protocol (its calls can only advance the
backends' pseudorandom streams): backend 0 is degraded to 6× latency and
30% errors exactly at tick 10 and revived exactly at tick 60 — the backends
handling tick `t`'s requests show backend 0 degraded precisely for
`10 ≤ t < 60` and healthy otherwise — and the recorded `detection_tick` is
the first tick of the window `[10, 60]` having at least one admitted
response and backend 0's share of admitted responses below `0.20`. -/
theorem degradation_schedule_and_detection_tick {σ : Type} (c : LbClass σ)
    (hp : c.PreservesCtl) (seed entropy : ℕ) :
    (∀ t, ((degradationFaults t (degStateAt c seed entropy t).bks).head?).map
        SimulatedBackend.ctl =
      some (if 10 ≤ t ∧ t < 60 then degradedCtlB0 else healthyCtlB0)) ∧
    (scenario_degradation_detection c seed entropy).detection_tick =
      firstDetectionTick (scenario_degradation_detection c seed entropy).log := by
  constructor
  · intro t
    have h := degradationFaults_head_ctl_of t (degStateAt c seed entropy t).bks
      (degStateAt_invariant c hp seed entropy t).1
    rw [h]
    congr 1
    unfold degCtlAfter
    by_cases ht : 10 ≤ t ∧ t < 60
    · rw [if_pos (by omega), if_pos ht]
    · rw [if_neg (by omega), if_neg ht]
  · have h := degStateAt_invariant c hp seed entropy 80
    unfold scenario_degradation_detection firstDetectionTick
    exact h.2.2

/-- Witness for C7: the shed-everything balancer respects the protocol and
satisfies the scenario schedule and detection characterization at seed 42. -/
theorem degradation_schedule_and_detection_tick_witness :
    shedAllLb.PreservesCtl ∧
    ((∀ t, ((degradationFaults t (degStateAt shedAllLb 42 0 t).bks).head?).map
        SimulatedBackend.ctl =
      some (if 10 ≤ t ∧ t < 60 then degradedCtlB0 else healthyCtlB0)) ∧
    (scenario_degradation_detection shedAllLb 42 0).detection_tick =
      firstDetectionTick (scenario_degradation_detection shedAllLb 42 0).log) :=
  ⟨⟨fun _ _ => rfl, fun _ _ _ => rfl⟩,
   degradation_schedule_and_detection_tick shedAllLb
     ⟨fun _ _ => rfl, fun _ _ _ => rfl⟩ 42 0⟩

namespace SpecSelector

/-- Weighted sampling returns an element of the pool. -/
lemma pickWeightedGo_mem (w : ℕ → ℚ) (pool : List ℕ) (t : ℚ) (i : ℕ)
    (h : pickWeightedGo w pool t = some i) : i ∈ pool := by
  induction pool generalizing t with
  | nil => simp [pickWeightedGo] at h
  | cons j rest ih =>
      rw [pickWeightedGo] at h
      split at h
      · cases h
        exact List.mem_cons_self _ _
      · exact List.mem_cons_of_mem _ (ih _ h)

/-- The argmax pick returns an element of the pool. -/
lemma argmaxWeight_mem (w : ℕ → ℚ) (pool : List ℕ) (i : ℕ)
    (h : argmaxWeight w pool = some i) : i ∈ pool := by
  induction pool with
  | nil => simp [argmaxWeight] at h
  | cons j rest ih =>
      rw [argmaxWeight] at h
      rcases hm : argmaxWeight w rest with _ | k <;> rw [hm] at h
      · cases h
        exact List.mem_cons_self _ _
      · have hik : i = j ∨ i = k := by
          rcases h with ⟨⟩
          split <;> [exact Or.inl rfl; exact Or.inr rfl]
        rcases hik with rfl | rfl
        · exact List.mem_cons_self _ _
        · exact List.mem_cons_of_mem _ (ih hm)

/-- The least-bad pick returns an element of the pool. -/
lemma leastBadGo_mem (key : ℕ → ℚ × ℚ) (pool : List ℕ) (i : ℕ)
    (h : leastBadGo key pool = some i) : i ∈ pool := by
  induction pool with
  | nil => simp [leastBadGo] at h
  | cons j rest ih =>
      rw [leastBadGo] at h
      rcases hm : leastBadGo key rest with _ | k <;> rw [hm] at h
      · cases h
        exact List.mem_cons_self _ _
      · have hik : i = j ∨ i = k := by
          rcases h with ⟨⟩
          split <;> [exact Or.inl rfl; exact Or.inr rfl]
        rcases hik with rfl | rfl
        · exact List.mem_cons_self _ _
        · exact List.mem_cons_of_mem _ (ih hm)

/-- Members of the eligible pool are valid backend indices. -/
lemma eligiblePool_lt (st : SelectorState) (i : ℕ) (h : i ∈ eligiblePool st) :
    i < st.backends.length :=
  List.mem_range.mp (List.mem_filter.mp h).1

/-- Members of the quarantined pool are valid backend indices. -/
lemma quarantinedPool_lt (st : SelectorState) (i : ℕ)
    (h : i ∈ quarantinedPool st) : i < st.backends.length :=
  List.mem_range.mp (List.mem_filter.mp h).1

/-- A valid backend index yields a non-empty name when all backend names
are non-empty. -/
lemma backendName_sound (st : SelectorState) (i : ℕ)
    (hi : i < st.backends.length)
    (hnames : ∀ b ∈ st.backends, b.name ≠ "") :
    ((st.backends.get? i).map (·.name)).getD "" ≠ "" := by
  rcases h : st.backends.get? i with _ | b
  · rw [List.get?_eq_none] at h
    omega
  · have hb : b ∈ st.backends := List.get?_mem h
    simpa using hnames b hb

/-- `handle_request` either sheds or invokes a valid backend index. -/
lemma handle_request_cases (st : SelectorState) (req : Request) (u : ℚ)
    (outcome : ℕ → Bool × ℚ) :
    handle_request st req u outcome = (shedResponse req, none) ∨
    ∃ i, i < st.backends.length ∧
      handle_request st req u outcome = invoke st req outcome i := by
  unfold handle_request
  by_cases hp : (eligiblePool st).isEmpty
  · simp only [hp, if_true]
    by_cases hc : req.priority = .CRITICAL
    · simp only [hc, if_true]
      rcases hlb : leastBad st with _ | i
      · exact Or.inl (by simp)
      · refine Or.inr ⟨i, ?_, rfl⟩
        exact quarantinedPool_lt st i (leastBadGo_mem _ _ _ hlb)
    · simp only [hc, if_false]
      exact Or.inl (by simp)
  · simp only [hp, if_false]
    by_cases ht : threshold req.priority < pressure st
    · simp only [ht, if_true]
      exact Or.inl (by simp)
    · simp only [ht, if_false]
      by_cases hcp : threshold .NORMAL < pressure st
      · simp only [hcp, if_true]
        rcases ham : argmaxWeight (weightOf st) (eligiblePool st) with _ | i
        · exact Or.inl (by simp)
        · refine Or.inr ⟨i, ?_, rfl⟩
          exact eligiblePool_lt st i (argmaxWeight_mem _ _ _ ham)
      · simp only [hcp, if_false]
        rcases hpw : pickWeightedGo (weightOf st) (eligiblePool st)
            (u * ((eligiblePool st).map (weightOf st)).sum) with _ | i
        · exact Or.inl (by simp)
        · refine Or.inr ⟨i, ?_, rfl⟩
          exact eligiblePool_lt st i (pickWeightedGo_mem _ _ _ _ hpw)

/-- **C1.** For every response produced by the Selector's `handle_request`
(modelled from the spec, the implementation not being part of the
repository): if `shed` is true then `admitted` is false, `backend_name` is
empty and `latency_ms` is `0`; and if `admitted` is true then
`backend_name` is non-empty and equals the name of the backend that was
invoked. -/
theorem handle_request_response_consistency (st : SelectorState)
    (req : Request) (u : ℚ) (outcome : ℕ → Bool × ℚ)
    (hnames : ∀ b ∈ st.backends, b.name ≠ "") :
    ((handle_request st req u outcome).1.shed = true →
      (handle_request st req u outcome).1.admitted = false ∧
      (handle_request st req u outcome).1.backend_name = "" ∧
      (handle_request st req u outcome).1.latency_ms = 0) ∧
    ((handle_request st req u outcome).1.admitted = true →
      (handle_request st req u outcome).1.backend_name ≠ "" ∧
      ∃ i, (handle_request st req u outcome).2 = some i ∧
        (st.backends.get? i).map (·.name) =
          some ((handle_request st req u outcome).1.backend_name)) := by
  rcases handle_request_cases st req u outcome with hcase | ⟨i, hi, hcase⟩
  · rw [hcase]
    constructor
    · intro _
      exact ⟨rfl, rfl, rfl⟩
    · intro hadm
      simp [shedResponse] at hadm
  · rw [hcase]
    constructor
    · intro hshed
      simp [invoke] at hshed
    · intro _
      refine ⟨?_, i, rfl, ?_⟩
      · exact backendName_sound st i hi hnames
      · rcases h : st.backends.get? i with _ | b
        · rw [List.get?_eq_none] at h
          omega
        · rw [List.get?_eq_getElem?] at h
          simp [invoke, h]

/-- Witness for C1: a selector state with one healthy backend named `"B0"`
and a NORMAL request; all hypotheses hold at this input. -/
theorem handle_request_response_consistency_witness :
    (∀ b ∈ [(⟨"B0", 1, false, 0, 50⟩ : BackendSnapshot)], b.name ≠ "") ∧
    (((handle_request ⟨[⟨"B0", 1, false, 0, 50⟩], 1⟩ ⟨7, .NORMAL, 0⟩ 0
          (fun _ => (true, 50))).1.shed = true →
        (handle_request ⟨[⟨"B0", 1, false, 0, 50⟩], 1⟩ ⟨7, .NORMAL, 0⟩ 0
          (fun _ => (true, 50))).1.admitted = false ∧
        (handle_request ⟨[⟨"B0", 1, false, 0, 50⟩], 1⟩ ⟨7, .NORMAL, 0⟩ 0
          (fun _ => (true, 50))).1.backend_name = "" ∧
        (handle_request ⟨[⟨"B0", 1, false, 0, 50⟩], 1⟩ ⟨7, .NORMAL, 0⟩ 0
          (fun _ => (true, 50))).1.latency_ms = 0) ∧
      ((handle_request ⟨[⟨"B0", 1, false, 0, 50⟩], 1⟩ ⟨7, .NORMAL, 0⟩ 0
          (fun _ => (true, 50))).1.admitted = true →
        (handle_request ⟨[⟨"B0", 1, false, 0, 50⟩], 1⟩ ⟨7, .NORMAL, 0⟩ 0
          (fun _ => (true, 50))).1.backend_name ≠ "" ∧
        ∃ i, (handle_request ⟨[⟨"B0", 1, false, 0, 50⟩], 1⟩ ⟨7, .NORMAL, 0⟩ 0
            (fun _ => (true, 50))).2 = some i ∧
          (([(⟨"B0", 1, false, 0, 50⟩ : BackendSnapshot)].get? i).map
              (·.name)) =
            some ((handle_request ⟨[⟨"B0", 1, false, 0, 50⟩], 1⟩
              ⟨7, .NORMAL, 0⟩ 0 (fun _ => (true, 50))).1.backend_name))) :=
  ⟨by simp,
   handle_request_response_consistency ⟨[⟨"B0", 1, false, 0, 50⟩], 1⟩
     ⟨7, .NORMAL, 0⟩ 0 (fun _ => (true, 50)) (by simp)⟩

end SpecSelector

end LoadBalancerBench

namespace WikiScripts

/-- **C9.** The `slugify` function of `build_categories.py` and the
`slugify` function of `split_articles.py` are extensionally equal: they
return the same slug for every title. -/
theorem slugify_copies_agree :
    ∀ title : String, slugify_build_categories title = slugify_split_articles title :=
  fun _ => rfl

end WikiScripts

namespace StripComments

/-- **C10.** Whenever `tokenize.generate_tokens` raises `TokenError` on the
input, `strip_comments` returns the input source unchanged. -/
theorem strip_comments_token_error_passthrough
    (tokenizer : String → Except Unit (List PyToken)) (source : String)
    (e : Unit) (hE : tokenizer source = Except.error e) :
    strip_comments tokenizer source = source := by
  unfold strip_comments
  rw [hE]

/-- Witness for C10 with a tokenizer that always raises `TokenError`. -/
theorem strip_comments_token_error_witness :
    (fun _ : String => (Except.error () : Except Unit (List PyToken)))
        "x = (1  # oops" = Except.error () ∧
    strip_comments (fun _ => Except.error ()) "x = (1  # oops" =
      "x = (1  # oops" :=
  ⟨rfl, strip_comments_token_error_passthrough
    (fun _ => Except.error ()) "x = (1  # oops" () rfl⟩

end StripComments
